import Mathlib

/-!
Verification development for a product-catalog service consisting of a
Record (Product) value object, a Tabular-File (CSV) source, a Relational
(SQLite) source, and an HTTP handler that selects between them.

The Python code is shallowly embedded: pure parsing/validation logic
becomes Lean functions; raised exceptions become `Except` errors carrying
the exception class and message; the file system and the database driver
are abstracted as explicit parameters (file contents, query results,
schema table lists), since the claims under scrutiny are about the logic
applied to whatever those collaborators return.
-/

deriving instance DecidableEq for Except

namespace CatalogSpec

/-! ### Python string primitives -/

/-- The whitespace test used by Python's `str.strip()` (restricted to the
ASCII whitespace the repository's data can contain). -/
def pyWs (c : Char) : Bool := c.isWhitespace

/-- Embedding of Python `str.strip()`: remove leading and trailing
whitespace. -/
def pstrip (s : String) : String :=
  ⟨List.rdropWhile pyWs (List.dropWhile pyWs s.data)⟩

/-- Python `repr` of a string, as it appears in exception messages such as
`invalid literal for int() with base 10: 'abc'`.  Modelled for strings that
contain no quote or backslash characters (the only ones the claims use). -/
def reprQuote (s : String) : String := "\x27" ++ s ++ "\x27"

/-- Numeric value of a digit list (most significant first). -/
def digitsNat (cs : List Char) : Nat :=
  cs.foldl (fun a c => a * 10 + (c.toNat - 48)) 0

/-- Embedding of Python `int(string)`: optional surrounding whitespace,
optional sign, then a non-empty run of decimal digits. -/
def pyIntStr (s : String) : Option Int :=
  match List.rdropWhile pyWs (List.dropWhile pyWs s.data) with
  | '+' :: rest =>
      if rest ≠ [] ∧ rest.all Char.isDigit then some (digitsNat rest : Int) else none
  | '-' :: rest =>
      if rest ≠ [] ∧ rest.all Char.isDigit then some (-(digitsNat rest : Int)) else none
  | rest =>
      if rest ≠ [] ∧ rest.all Char.isDigit then some (digitsNat rest : Int) else none

/-- Value of an unsigned decimal literal `intPart[.fracPart]` as a rational
(Python floats are modelled exactly by rationals; the claims only compare
signs and equalities that are exact in both representations). -/
def decimalCore (cs : List Char) : Option Rat :=
  match cs.span (fun c => c ≠ '.') with
  | (ip, []) =>
      if ip ≠ [] ∧ ip.all Char.isDigit then some ((digitsNat ip : Int) : Rat) else none
  | (ip, _dot :: fp) =>
      if (ip ≠ [] ∨ fp ≠ []) ∧ ip.all Char.isDigit ∧ fp.all Char.isDigit then
        some ((digitsNat ip : Rat) + (digitsNat fp : Rat) / ((10 : Rat) ^ fp.length))
      else none

/-- Embedding of Python `float(string)` on finite decimal literals:
optional surrounding whitespace, optional sign, digits with an optional
fractional part. -/
def pyFloatStr (s : String) : Option Rat :=
  match List.rdropWhile pyWs (List.dropWhile pyWs s.data) with
  | '+' :: rest => decimalCore rest
  | '-' :: rest => (decimalCore rest).map (fun q => -q)
  | rest => decimalCore rest

/-! ### Error kinds

The spec's three error kinds correspond to the exception classes the code
lets escape: `ValueError` (Validation), `FileNotFoundError` (NotFound) and
the base `Exception` (Unexpected). -/

inductive PyError where
  | valueError (msg : String)
  | fileNotFound (msg : String)
  | exception (msg : String)
deriving DecidableEq

/-- The HTTP status `app.get_products` maps each escaping exception to. -/
def httpStatus : PyError → Nat
  | .valueError _ => 400
  | .fileNotFound _ => 404
  | .exception _ => 500

/-! ### The Record (`Product`) value object, from `src/models/product.py` -/

structure Product where
  id : Int
  name : String
  description : String
  price : Rat
  stock : Int
  image_path : String
deriving DecidableEq

/-- Embedding of `Product.__init__`: the four invariant checks in source
order, then the field assignments (trimming `name`, `description` and
`image_path`; `description`/`image_path` fall back to the empty string when
falsy, exactly as `x.strip() if x else ''` does). -/
def Product.init (id : Int) (name description : String) (price : Rat)
    (stock : Int) (image_path : String) : Except String Product :=
  if id ≤ 0 then
    .error (s!"Product ID moet een positief getal zijn, kreeg: {id}")
  else if pstrip name = "" then
    .error ("Product naam mag niet leeg zijn")
  else if price < 0 then
    .error (s!"Prijs mag niet negatief zijn, kreeg: {price}")
  else if stock < 0 then
    .error (s!"Voorraad mag niet negatief zijn, kreeg: {stock}")
  else
    .ok { id := id
          name := pstrip name
          description := if description = "" then "" else pstrip description
          price := price
          stock := stock
          image_path := if image_path = "" then "" else pstrip image_path }

/-- Embedding of `Product.get_display_image`.  The file system is an
explicit oracle `fs` telling which paths exist under `static/images`. -/
def Product.get_display_image (fs : String → Bool) (p : Product) : String :=
  if p.image_path ≠ "" ∧ fs ("static/images/" ++ p.image_path) then p.image_path
  else "placeholder.png"

/-- The dictionary produced by `Product.to_dict` (JSON projection). -/
structure ProductDict where
  id : Int
  name : String
  description : String
  price : Rat
  stock : Int
  image : String
deriving DecidableEq

/-- Embedding of `Product.to_dict`. -/
def Product.to_dict (fs : String → Bool) (p : Product) : ProductDict :=
  { id := p.id, name := p.name, description := p.description,
    price := p.price, stock := p.stock, image := p.get_display_image fs }

/-- Embedding of the `is_low_stock` property. -/
def Product.is_low_stock (p : Product) : Bool := p.stock < 10

/-! ### Tabular-File (CSV) source, from `src/data_sources/csv_source.py`

A parsed CSV file is a list of records, each a list of field strings; the
first record is the header (`csv.DictReader` semantics).  A row dictionary
maps each header name to `some field` or, when the row is shorter than the
header, to `none` (DictReader's `restval=None`). -/

structure CSVSource where
  csv_path : String
deriving DecidableEq

/-- Embedding of `CSVSource.__init__` followed by `_validate_file_exists`;
`pathExists` abstracts `os.path.exists`. -/
def CSVSource.init (path : String) (pathExists : Bool) : Except PyError CSVSource :=
  if path = "" then .error (.valueError ("CSV pad mag niet leeg zijn"))
  else if pathExists then .ok ⟨path⟩
  else .error (.fileNotFound (s!"CSV bestand niet gevonden: {path}"))

/-- The dictionary `csv.DictReader` builds for one data row. -/
def rowDict (header fields : List String) : List (String × Option String) :=
  header.enum.map (fun p => (p.2, fields.get? p.1))

/-- Errors arising while processing one CSV row: `wrapped` is the
`ValueError` re-raised by `_parse_product_row`'s `except (ValueError,
KeyError)` clause; `escaped` is a `TypeError`/`AttributeError` (from a
`None` cell) that the clause does not catch. -/
inductive CsvRowError where
  | wrapped (msg : String)
  | escaped (msg : String)
deriving DecidableEq

def requiredFields : List String :=
  ["id", "name", "description", "price", "stock", "image_path"]

/-- The re-wrapping message of `_parse_product_row`'s except clause. -/
def wrapRow (n : Nat) (inner : String) : String :=
  s!"Fout bij verwerken van rij {n}: " ++ inner

/-- Embedding of `row[f]`: a missing key raises `KeyError(f)`, whose `str`
is the `repr` of the key; it is caught and re-wrapped as a `ValueError`. -/
def getItem (row : List (String × Option String)) (f : String) (n : Nat) :
    Except CsvRowError (Option String) :=
  match row.lookup f with
  | some v => .ok v
  | none => .error (.wrapped (wrapRow n (reprQuote f)))

/-- Embedding of `int(cell)`: a `None` cell raises an uncaught `TypeError`;
an unparsable string raises `ValueError`, caught and re-wrapped. -/
def intField (v : Option String) (n : Nat) : Except CsvRowError Int :=
  match v with
  | none => .error (.escaped
      ("int() argument must be a string, a bytes-like object or a real number, not \x27NoneType\x27"))
  | some s =>
      match pyIntStr s with
      | some i => .ok i
      | none => .error (.wrapped (wrapRow n
          ("invalid literal for int() with base 10: " ++ reprQuote s)))

/-- Embedding of `float(cell)`. -/
def floatField (v : Option String) (n : Nat) : Except CsvRowError Rat :=
  match v with
  | none => .error (.escaped
      ("float() argument must be a string or a real number, not \x27NoneType\x27"))
  | some s =>
      match pyFloatStr s with
      | some q => .ok q
      | none => .error (.wrapped (wrapRow n
          ("could not convert string to float: " ++ reprQuote s)))

/-- Embedding of `cell.strip()`: a `None` cell raises an uncaught
`AttributeError`. -/
def stripField (v : Option String) : Except CsvRowError String :=
  match v with
  | none => .error (.escaped ("\x27NoneType\x27 object has no attribute \x27strip\x27"))
  | some s => .ok (pstrip s)

/-- Embedding of `CSVSource._parse_product_row`: missing-column check,
field conversions, value checks, then the `Product` constructor; every
`ValueError`/`KeyError` is re-wrapped with the row number. -/
def CSVSource.parse_product_row (row : List (String × Option String)) (n : Nat) :
    Except CsvRowError Product :=
  let missing := requiredFields.filter (fun f => (row.lookup f).isNone)
  if missing ≠ [] then
    .error (.wrapped (wrapRow n
      (reprQuote (s!"Ontbrekende kolommen in rij {n}: " ++ String.intercalate ", " missing))))
  else do
    let vid ← getItem row "id" n
    let product_id ← intField vid n
    let vname ← getItem row "name" n
    let name ← stripField vname
    let vdesc ← getItem row "description" n
    let description ← stripField vdesc
    let vprice ← getItem row "price" n
    let price ← floatField vprice n
    let vstock ← getItem row "stock" n
    let stock ← intField vstock n
    let vimg ← getItem row "image_path" n
    let image_path ← stripField vimg
    if product_id ≤ 0 then
      .error (.wrapped (wrapRow n (s!"Product ID moet positief zijn (rij {n})")))
    else if name = "" then
      .error (.wrapped (wrapRow n (s!"Product naam mag niet leeg zijn (rij {n})")))
    else if price < 0 then
      .error (.wrapped (wrapRow n (s!"Prijs mag niet negatief zijn (rij {n})")))
    else if stock < 0 then
      .error (.wrapped (wrapRow n (s!"Voorraad mag niet negatief zijn (rij {n})")))
    else
      match Product.init product_id name description price stock image_path with
      | .ok p => .ok p
      | .error m => .error (.wrapped (wrapRow n m))

/-- The row loop of `CSVSource.get_all_products`: rows are processed in
file order, numbered from 2, stopping at the first error. -/
def csvProcessRows (header : List String) :
    List (List String) → Nat → Except CsvRowError (List Product)
  | [], _ => .ok []
  | f :: rest, n => do
      let p ← CSVSource.parse_product_row (rowDict header f) n
      let ps ← csvProcessRows header rest (n + 1)
      pure (p :: ps)

/-- Embedding of `CSVSource.get_all_products`.  `content` is the parsed
file (`none` models a file vanished after construction).  Every exception
raised inside the `try` block other than `FileNotFoundError`/`csv.Error` —
including the `ValueError`s for a missing header, a bad row and "no valid
products" — is caught by the final `except Exception` clause and re-raised
as a plain `Exception`. -/
def CSVSource.get_all_products (src : CSVSource)
    (content : Option (List (List String))) : Except PyError (List Product) :=
  match content with
  | none => .error (.fileNotFound (s!"CSV bestand niet gevonden: {src.csv_path}"))
  | some [] => .error (.exception
      ("Onverwachte fout bij lezen van CSV: CSV bestand heeft geen headers of is leeg"))
  | some (header :: dataRows) =>
      match csvProcessRows header dataRows 2 with
      | .error (.wrapped m) =>
          .error (.exception ("Onverwachte fout bij lezen van CSV: " ++ m))
      | .error (.escaped m) =>
          .error (.exception ("Onverwachte fout bij lezen van CSV: " ++ m))
      | .ok ps =>
          if ps = [] then
            .error (.exception
              ("Onverwachte fout bij lezen van CSV: Geen geldige producten gevonden in CSV bestand"))
          else .ok ps

/-! ### Relational (SQLite) source, from `src/data_sources/database_source.py`

SQL cell values are embedded as `SqlValue`; a query-result row carries the
six selected columns.  The driver is abstracted: construction receives the
outcome of opening the database (the schema's table names on success), and
`get_all_products` receives the rows the `ORDER BY id` query returned. -/

inductive SqlValue where
  | null
  | int (i : Int)
  | real (q : Rat)
  | text (s : String)
deriving DecidableEq

/-- Python `str(value)` on a fetched cell.  A SQL `NULL` arrives as Python
`None`, whose string form is the four-letter string `None`.  (Numeric
rendering approximates Python's `repr`; the claims only apply `str` to
`null` and `text` cells.) -/
def pyStr : SqlValue → String
  | .null => "None"
  | .int i => toString i
  | .real q => toString q
  | .text s => s

/-- Python truthiness of a fetched cell, for `value or ''`. -/
def SqlValue.falsy : SqlValue → Bool
  | .null => true
  | .int i => i == 0
  | .real q => q == 0
  | .text s => s == ""

/-- Embedding of `str(value or '')`. -/
def strOrEmpty (v : SqlValue) : String := if v.falsy then "" else pyStr v

/-- The exception classes `_create_product_from_row` catches. -/
inductive DbConvError where
  | typeError (msg : String)
  | valueError (msg : String)
deriving DecidableEq

def DbConvError.msg : DbConvError → String
  | .typeError m => m
  | .valueError m => m

/-- Embedding of `int(cell)` on a fetched cell: `None` raises `TypeError`,
a float truncates toward zero, an unparsable string raises `ValueError`. -/
def pyIntOfSql : SqlValue → Except DbConvError Int
  | .null => .error (.typeError
      ("int() argument must be a string, a bytes-like object or a real number, not \x27NoneType\x27"))
  | .int i => .ok i
  | .real q => .ok (q.num.tdiv (q.den : Int))
  | .text s =>
      match pyIntStr s with
      | some i => .ok i
      | none => .error (.valueError
          ("invalid literal for int() with base 10: " ++ reprQuote s))

/-- Embedding of `float(cell)` on a fetched cell. -/
def pyFloatOfSql : SqlValue → Except DbConvError Rat
  | .null => .error (.typeError
      ("float() argument must be a string or a real number, not \x27NoneType\x27"))
  | .int i => .ok (i : Rat)
  | .real q => .ok q
  | .text s =>
      match pyFloatStr s with
      | some q => .ok q
      | none => .error (.valueError
          ("could not convert string to float: " ++ reprQuote s))

/-- One row of the `SELECT id, name, description, price, stock, image_path`
query result. -/
structure DBRow where
  id : SqlValue
  name : SqlValue
  description : SqlValue
  price : SqlValue
  stock : SqlValue
  image_path : SqlValue
deriving DecidableEq

structure DatabaseSource where
  database_path : String
  connection : Option Unit
deriving DecidableEq

/-- Embedding of `DatabaseSource._connect`: existence check (the raised
`FileNotFoundError` is not a `sqlite3.Error`, so it escapes unchanged),
then opening plus the `sqlite_master` probe (`openRes`; a driver error is
wrapped into a plain `Exception`), then the `products` table check whose
`ValueError` likewise escapes unchanged. -/
def DatabaseSource.connect (path : String) (pathExists : Bool)
    (openRes : Except String (List String)) : Except PyError DatabaseSource :=
  if !pathExists then
    .error (.fileNotFound (s!"Database bestand niet gevonden: {path}"))
  else
    match openRes with
    | .error e => .error (.exception (s!"Database verbinding mislukt: {e}"))
    | .ok tables =>
        if "products" ∈ tables then .ok ⟨path, some ()⟩
        else .error (.valueError
          ("Database bevat geen \x27products\x27 tabel. Voer \x27python init_database.py\x27 uit."))

/-- Embedding of `DatabaseSource.__init__`: empty-path guard, then
`_connect`. -/
def DatabaseSource.init (path : String) (pathExists : Bool)
    (openRes : Except String (List String)) : Except PyError DatabaseSource :=
  if path = "" then .error (.valueError ("Database pad mag niet leeg zijn"))
  else DatabaseSource.connect path pathExists openRes

/-- Embedding of `DatabaseSource._create_product_from_row`: the six cell
conversions in source order feed the `Product` constructor; any
`KeyError`/`ValueError`/`TypeError` is wrapped into a `ValueError`. -/
def DatabaseSource.create_product_from_row (r : DBRow) : Except String Product :=
  match pyIntOfSql r.id with
  | .error e => .error ("Ongeldige product data in database: " ++ e.msg)
  | .ok id =>
      match pyFloatOfSql r.price with
      | .error e => .error ("Ongeldige product data in database: " ++ e.msg)
      | .ok price =>
          match pyIntOfSql r.stock with
          | .error e => .error ("Ongeldige product data in database: " ++ e.msg)
          | .ok stock =>
              match Product.init id (pyStr r.name) (strOrEmpty r.description)
                  price stock (strOrEmpty r.image_path) with
              | .ok p => .ok p
              | .error m => .error ("Ongeldige product data in database: " ++ m)

/-- The row loop of `DatabaseSource.get_all_products`: a row whose
construction fails is logged and skipped; the rest are kept in query
order. -/
def dbRowsLoop : List DBRow → List Product
  | [] => []
  | r :: rest =>
      match DatabaseSource.create_product_from_row r with
      | .ok p => p :: dbRowsLoop rest
      | .error _ => dbRowsLoop rest

/-- Embedding of `DatabaseSource.get_all_products` given the rows the
`ORDER BY id` query returned.  The "no valid products" `ValueError` is not
a `sqlite3.Error`, so it escapes unchanged. -/
def DatabaseSource.get_all_products (rows : List DBRow) :
    Except PyError (List Product) :=
  let ps := dbRowsLoop rows
  if ps = [] then
    .error (.valueError ("Geen geldige producten gevonden in database"))
  else .ok ps

/-- Embedding of `DatabaseSource.close`: `connection.close()` may raise a
driver error (`driverError`), which is swallowed; the `finally` clause
clears the handle in every case, so the function is total — it never
raises. -/
def DatabaseSource.close (_driverError : Bool) (s : DatabaseSource) : DatabaseSource :=
  match s.connection with
  | some _ => { s with connection := none }
  | none => s

/-! ### The request handler, from `src/app.py` (`get_products`)

The handler builds a source, runs `get_all_products` inside `try`, and
closes the source in a `finally` clause, so the close runs exactly once on
both the return path and every exception path; the outer `except` clauses
then map the exception class to an HTTP status.  The embedding returns the
status together with the number of `close()` calls made on the constructed
source. -/

def runGetProducts {σ : Type} (ctor : Except PyError σ)
    (getAll : σ → Except PyError (List Product)) : Nat × Nat :=
  match ctor with
  | .error e => (httpStatus e, 0)
  | .ok s =>
      match getAll s with
      | .ok _ => (200, 1)
      | .error e => (httpStatus e, 1)

/-! ### Supporting lemmas -/

theorem dropWhile_length_le {α : Type} (p : α → Bool) (l : List α) :
    (l.dropWhile p).length ≤ l.length := by
  induction l with
  | nil => simp
  | cons c t ih =>
      by_cases h : p c
      · rw [List.dropWhile_cons, if_pos h]
        exact Nat.le_succ_of_le ih
      · rw [List.dropWhile_cons, if_neg h]

theorem dropWhile_fix_head {α : Type} (p : α → Bool) (c : α) (t : List α)
    (h : List.dropWhile p (c :: t) = c :: t) : p c = false := by
  by_contra hpc
  rw [Bool.not_eq_false] at hpc
  rw [List.dropWhile_cons, if_pos hpc] at h
  have hlen := congrArg List.length h
  have hle := dropWhile_length_le p t
  simp at hlen
  omega

theorem dropWhile_rdropWhile_fix {α : Type} (p : α → Bool) (x : List α)
    (h : List.dropWhile p x = x) :
    List.dropWhile p (List.rdropWhile p x) = List.rdropWhile p x := by
  cases x with
  | nil => simp [List.rdropWhile]
  | cons c t =>
      have hpc : p c = false := dropWhile_fix_head p c t h
      rw [List.rdropWhile, List.reverse_cons, List.dropWhile_append]
      by_cases he : (List.dropWhile p t.reverse).isEmpty
      · rw [if_pos he]
        simp [List.dropWhile_cons, hpc]
      · rw [if_neg he]
        rw [List.reverse_append]
        simp [List.dropWhile_cons, hpc]

theorem pstrip_idem (s : String) : pstrip (pstrip s) = pstrip s := by
  unfold pstrip
  congr 1
  have h1 : List.dropWhile pyWs (List.dropWhile pyWs s.data) =
      List.dropWhile pyWs s.data := List.dropWhile_idempotent pyWs s.data
  have h2 := dropWhile_rdropWhile_fix pyWs (List.dropWhile pyWs s.data) h1
  show List.rdropWhile pyWs
      (List.dropWhile pyWs (List.rdropWhile pyWs (List.dropWhile pyWs s.data))) =
    List.rdropWhile pyWs (List.dropWhile pyWs s.data)
  rw [h2]
  exact List.rdropWhile_idempotent pyWs (List.dropWhile pyWs s.data)

theorem stripIf_eq (x : String) : (if x = "" then "" else pstrip x) = pstrip x := by
  by_cases h : x = ""
  · rw [if_pos h, h]
    rfl
  · rw [if_neg h]

theorem Product.init_ok (id : Int) (name description : String) (price : Rat)
    (stock : Int) (image_path : String) (p : Product)
    (h : Product.init id name description price stock image_path = .ok p) :
    0 < id ∧ pstrip name ≠ "" ∧ 0 ≤ price ∧ 0 ≤ stock ∧
      p = ⟨id, pstrip name, pstrip description, price, stock, pstrip image_path⟩ := by
  unfold Product.init at h
  simp only [stripIf_eq] at h
  split_ifs at h with h1 h2 h3 h4
  injection h with h
  exact ⟨by omega, h2, le_of_not_lt h3, le_of_not_lt h4, h.symm⟩

theorem create_ok_fields (r : DBRow) (p : Product)
    (h : DatabaseSource.create_product_from_row r = .ok p) :
    pyIntOfSql r.id = .ok p.id ∧ p.name = pstrip (pyStr r.name) := by
  unfold DatabaseSource.create_product_from_row at h
  cases hid : pyIntOfSql r.id with
  | error e => simp only [hid] at h; exact absurd h (by simp)
  | ok i =>
      simp only [hid] at h
      cases hpr : pyFloatOfSql r.price with
      | error e => simp only [hpr] at h; exact absurd h (by simp)
      | ok pr =>
          simp only [hpr] at h
          cases hst : pyIntOfSql r.stock with
          | error e => simp only [hst] at h; exact absurd h (by simp)
          | ok st =>
              simp only [hst] at h
              cases hinit : Product.init i (pyStr r.name) (strOrEmpty r.description)
                  pr st (strOrEmpty r.image_path) with
              | error m => simp only [hinit] at h; exact absurd h (by simp)
              | ok p' =>
                  simp only [hinit] at h
                  obtain ⟨-, -, -, -, hp⟩ := Product.init_ok _ _ _ _ _ _ _ hinit
                  injection h with h
                  subst h
                  subst hp
                  exact ⟨rfl, rfl⟩

theorem dbRowsLoop_length_all_ok (l : List DBRow)
    (h : ∀ x ∈ l, ∃ p, DatabaseSource.create_product_from_row x = Except.ok p) :
    (dbRowsLoop l).length = l.length := by
  induction l with
  | nil => rfl
  | cons r rest ih =>
      obtain ⟨p, hp⟩ := h r (by simp)
      rw [dbRowsLoop, hp]
      simp only [List.length_cons]
      rw [ih (fun x hx => h x (by simp [hx]))]

theorem mem_dbRowsLoop_of_ok (l : List DBRow) (r : DBRow) (p : Product)
    (hr : r ∈ l) (hp : DatabaseSource.create_product_from_row r = .ok p) :
    p ∈ dbRowsLoop l := by
  induction l with
  | nil => cases hr
  | cons a rest ih =>
      rcases List.mem_cons.mp hr with h | h
      · subst h
        rw [dbRowsLoop, hp]
        exact List.mem_cons_self _ _
      · rw [dbRowsLoop]
        cases DatabaseSource.create_product_from_row a with
        | ok q => exact List.mem_cons_of_mem _ (ih h)
        | error _ => exact ih h

theorem mem_dbRowsLoop (l : List DBRow) (q : Product)
    (hq : q ∈ dbRowsLoop l) :
    ∃ r ∈ l, DatabaseSource.create_product_from_row r = .ok q := by
  induction l with
  | nil => cases hq
  | cons a rest ih =>
      rw [dbRowsLoop] at hq
      cases ha : DatabaseSource.create_product_from_row a with
      | ok p =>
          rw [ha] at hq
          rcases List.mem_cons.mp hq with h | h
          · subst h
            exact ⟨a, by simp, ha⟩
          · obtain ⟨r, hr, hcr⟩ := ih h
            exact ⟨r, by simp [hr], hcr⟩
      | error _ =>
          rw [ha] at hq
          obtain ⟨r, hr, hcr⟩ := ih hq
          exact ⟨r, by simp [hr], hcr⟩

theorem dbRowsLoop_sorted (rows : List DBRow) :
    (∀ r ∈ rows, ∃ i : Int, r.id = SqlValue.int i) →
    rows.Pairwise (fun a b => ∀ i j : Int,
      a.id = SqlValue.int i → b.id = SqlValue.int j → i ≤ j) →
    (dbRowsLoop rows).Pairwise (fun p q => p.id ≤ q.id) := by
  induction rows with
  | nil =>
      intro _ _
      constructor
  | cons a rest ih =>
      intro hint hsorted
      obtain ⟨hhead, htail⟩ := List.pairwise_cons.mp hsorted
      have hintrest : ∀ r ∈ rest, ∃ i : Int, r.id = SqlValue.int i :=
        fun r hr => hint r (by simp [hr])
      rw [dbRowsLoop]
      cases ha : DatabaseSource.create_product_from_row a with
      | error _ => exact ih hintrest htail
      | ok p =>
          refine List.pairwise_cons.mpr ⟨?_, ih hintrest htail⟩
          intro q hq
          obtain ⟨r2, hr2, hcr2⟩ := mem_dbRowsLoop _ _ hq
          obtain ⟨i, hi⟩ := hint a (by simp)
          obtain ⟨j, hj⟩ := hintrest r2 hr2
          obtain ⟨hidp, -⟩ := create_ok_fields _ _ ha
          obtain ⟨hidq, -⟩ := create_ok_fields _ _ hcr2
          rw [hi] at hidp
          rw [hj] at hidq
          injection hidp with hidp
          injection hidq with hidq
          rw [← hidp, ← hidq]
          exact hhead r2 hr2 i j hi hj

/-! ### Claims -/

/-- Claim C1: the spec says a tabular file with a data row whose price
field does not parse (e.g. `"abc"`) makes `list_all()` fail with the
Validation kind.  The code raises that `ValueError`, but
`get_all_products`'s final `except Exception` clause catches it and
re-raises it as a plain `Exception` — the Unexpected kind, mapped to HTTP
500 — contradicting the method's own docstring (`ValueError: bij ongeldige
data in het CSV bestand`).  This theorem evaluates the embedded code at
the failing input: the entire call does fail and the message names row 3
and the value `abc`, but the error is the Unexpected kind, not
Validation. -/
theorem c1_csv_bad_price_unexpected_kind :
    CSVSource.get_all_products ⟨"data/products.csv"⟩
        (some [["id", "name", "description", "price", "stock", "image_path"],
               ["1", "Widget", "Fine", "10", "5", "w.png"],
               ["2", "Gadget", "Bad", "abc", "5", "g.png"]]) =
      .error (.exception
        ("Onverwachte fout bij lezen van CSV: Fout bij verwerken van rij 3: could not convert string to float: \x27abc\x27")) ∧
    httpStatus (.exception
        ("Onverwachte fout bij lezen van CSV: Fout bij verwerken van rij 3: could not convert string to float: \x27abc\x27")) = 500 := by
  exact ⟨by decide, rfl⟩

/-- Claim C4: the spec says a data row lacking a required column makes
`list_all()` fail with the Validation kind naming the row and the missing
columns.  The code raises a `KeyError` naming them, re-wrapped as a
`ValueError` — but the final `except Exception` clause of
`get_all_products` converts that into a plain `Exception` (the Unexpected
kind, HTTP 500), contradicting the docstring.  Evaluation at a file whose
header lacks `price`, so its first data row (row 2) lacks that column. -/
theorem c4_csv_missing_column_unexpected_kind :
    CSVSource.get_all_products ⟨"data/products.csv"⟩
        (some [["id", "name", "description", "stock", "image_path"],
               ["1", "Widget", "Fine", "5", "w.png"]]) =
      .error (.exception
        ("Onverwachte fout bij lezen van CSV: Fout bij verwerken van rij 2: \x27Ontbrekende kolommen in rij 2: price\x27")) ∧
    httpStatus (.exception
        ("Onverwachte fout bij lezen van CSV: Fout bij verwerken van rij 2: \x27Ontbrekende kolommen in rij 2: price\x27")) = 500 := by
  exact ⟨by decide, rfl⟩

/-- Claim C5: a database file that exists and opens successfully but whose
schema lacks the `products` table makes construction fail with the
Validation kind (`ValueError`), with the message instructing the caller to
run `python init_database.py`.  The `ValueError` raised inside `_connect`'s
`try` block is not a `sqlite3.Error`, so it escapes unchanged. -/
theorem c5_missing_table_validation (path : String) (tables : List String)
    (hpath : path ≠ "") (htab : "products" ∉ tables) :
    DatabaseSource.init path true (.ok tables) =
      .error (.valueError
        ("Database bevat geen \x27products\x27 tabel. Voer \x27python init_database.py\x27 uit.")) := by
  unfold DatabaseSource.init DatabaseSource.connect
  rw [if_neg hpath]
  simp [htab]


/-- Witness for C5 at a concrete path and schema. -/
theorem c5_missing_table_validation_witness :
    ("data/products.db" ≠ "" ∧ "products" ∉ ["sqlite_sequence"]) ∧
    DatabaseSource.init "data/products.db" true (.ok ["sqlite_sequence"]) =
      .error (.valueError
        ("Database bevat geen \x27products\x27 tabel. Voer \x27python init_database.py\x27 uit.")) :=
  ⟨⟨by decide, by decide⟩,
    c5_missing_table_validation "data/products.db" ["sqlite_sequence"] (by decide) (by decide)⟩

/-- Claim C8: `dispose()` on the Relational Source is idempotent and never
raises: the first call leaves the handle cleared (whether or not the
driver's `close()` raised — the error is swallowed), and a second call is
a no-op.  `close` is a total function in the embedding because every
exception path is swallowed by `except sqlite3.Error: pass`. -/
theorem c8_close_idempotent (b1 b2 : Bool) (s : DatabaseSource) :
    (s.close b1).connection = none ∧ (s.close b1).close b2 = s.close b1 := by
  cases s with
  | mk path conn =>
      cases conn <;> simp [DatabaseSource.close]

/-- Claim C9: in `get_products`, whenever source construction succeeds the
source is closed exactly once before the request completes — the `finally`
clause runs `close()` once on the return path and once on every exception
path of `get_all_products`. -/
theorem c9_dispose_exactly_once {σ : Type} (ctor : Except PyError σ)
    (getAll : σ → Except PyError (List Product)) (s : σ)
    (h : ctor = .ok s) :
    (runGetProducts ctor getAll).2 = 1 := by
  subst h
  cases h2 : getAll s <;> simp [runGetProducts, h2]

/-- Witness for C9: a concrete CSV source whose `list_all` fails; the
close count is still 1. -/
theorem c9_dispose_exactly_once_witness :
    ((.ok ⟨"data/products.csv"⟩ : Except PyError CSVSource) = .ok ⟨"data/products.csv"⟩) ∧
    (runGetProducts (.ok ⟨"data/products.csv"⟩ : Except PyError CSVSource)
        (fun src => CSVSource.get_all_products src
          (some [["id", "name", "description", "price", "stock", "image_path"]]))).2 = 1 :=
  ⟨rfl, c9_dispose_exactly_once _ _ _ rfl⟩

/-- Claim C10: constructing either source with an empty-string location
hits the explicit empty-path guard and raises `ValueError` (the Validation
kind) before any existence check runs: the outcome is the same whether or
not the path exists, and it is never the NotFound kind. -/
theorem c10_empty_path_validation (b : Bool) (openRes : Except String (List String)) :
    CSVSource.init "" b = .error (.valueError ("CSV pad mag niet leeg zijn")) ∧
    DatabaseSource.init "" b openRes =
      .error (.valueError ("Database pad mag niet leeg zijn")) :=
  ⟨rfl, rfl⟩

/-- Claim C6: Record construction fails exactly when an invariant is
violated — `identifier <= 0`, or the name is empty after trimming, or the
price is negative, or the stock is negative — and on success the
constructed Record satisfies all four invariants. -/
theorem c6_product_init_iff (id : Int) (name description : String) (price : Rat)
    (stock : Int) (image_path : String) :
    ((∃ e, Product.init id name description price stock image_path = .error e) ↔
      (id ≤ 0 ∨ pstrip name = "" ∨ price < 0 ∨ stock < 0)) ∧
    (∀ p, Product.init id name description price stock image_path = .ok p →
      0 < p.id ∧ pstrip p.name ≠ "" ∧ 0 ≤ p.price ∧ 0 ≤ p.stock) := by
  constructor
  · constructor
    · rintro ⟨e, he⟩
      unfold Product.init at he
      split_ifs at he with h1 h2 h3 h4
      · exact Or.inl h1
      · exact Or.inr (Or.inl h2)
      · exact Or.inr (Or.inr (Or.inl h3))
      · exact Or.inr (Or.inr (Or.inr h4))
    · intro hviol
      unfold Product.init
      split_ifs with h1 h2 h3 h4
      · exact ⟨_, rfl⟩
      · exact ⟨_, rfl⟩
      · exact ⟨_, rfl⟩
      · exact ⟨_, rfl⟩
      · rcases hviol with h | h | h | h
        · exact absurd h h1
        · exact absurd h h2
        · exact absurd h h3
        · exact absurd h h4
  · intro p hp
    obtain ⟨hid, hname, hpr, hst, hps⟩ := Product.init_ok _ _ _ _ _ _ _ hp
    subst hps
    refine ⟨hid, ?_, hpr, hst⟩
    show pstrip (pstrip name) ≠ ""
    rw [pstrip_idem]
    exact hname

/-- Witness for C6: the success half evaluated at a concrete valid
input. -/
theorem c6_product_init_iff_witness :
    0 < (Product.mk 1 "A" "" 2 3 "").id ∧
    pstrip (Product.mk 1 "A" "" 2 3 "").name ≠ "" ∧
    0 ≤ (Product.mk 1 "A" "" 2 3 "").price ∧
    0 ≤ (Product.mk 1 "A" "" 2 3 "").stock :=
  (c6_product_init_iff 1 "A" "" 2 3 "").2 (Product.mk 1 "A" "" 2 3 "") (by decide)

/-- Claim C7: constructing a new Record from the `id`, `name`,
`description`, `price` and `stock` fields of a Record's dictionary
projection succeeds and preserves those five fields (trimming is
idempotent, and the stored fields already satisfy the invariants). -/
theorem c7_to_dict_roundtrip (id : Int) (name description : String) (price : Rat)
    (stock : Int) (image_path : String) (fs : String → Bool) (img2 : String)
    (r : Product)
    (h : Product.init id name description price stock image_path = .ok r) :
    ∃ r2, Product.init (r.to_dict fs).id (r.to_dict fs).name
        (r.to_dict fs).description (r.to_dict fs).price (r.to_dict fs).stock
        img2 = .ok r2 ∧
      r2.id = r.id ∧ r2.name = r.name ∧ r2.description = r.description ∧
      r2.price = r.price ∧ r2.stock = r.stock := by
  obtain ⟨hid, hname, hpr, hst, hr⟩ := Product.init_ok _ _ _ _ _ _ _ h
  subst hr
  dsimp [Product.to_dict]
  have h1 : ¬ (id ≤ 0) := by omega
  have h2 : ¬ (pstrip (pstrip name) = "") := by
    rw [pstrip_idem]
    exact hname
  have h3 : ¬ (price < 0) := not_lt.mpr hpr
  have h4 : ¬ (stock < 0) := not_lt.mpr hst
  unfold Product.init
  rw [if_neg h1, if_neg h2, if_neg h3, if_neg h4]
  refine ⟨_, rfl, rfl, pstrip_idem name, ?_, rfl, rfl⟩
  show (if pstrip description = "" then "" else pstrip (pstrip description)) =
    pstrip description
  rw [stripIf_eq, pstrip_idem]

/-- Witness for C7 at a concrete Record. -/
theorem c7_to_dict_roundtrip_witness :
    ∃ r2, Product.init
        ((Product.mk 1 "A" "d" 2 3 "i").to_dict (fun _ => false)).id
        ((Product.mk 1 "A" "d" 2 3 "i").to_dict (fun _ => false)).name
        ((Product.mk 1 "A" "d" 2 3 "i").to_dict (fun _ => false)).description
        ((Product.mk 1 "A" "d" 2 3 "i").to_dict (fun _ => false)).price
        ((Product.mk 1 "A" "d" 2 3 "i").to_dict (fun _ => false)).stock
        "z" = .ok r2 ∧
      r2.id = (Product.mk 1 "A" "d" 2 3 "i").id ∧
      r2.name = (Product.mk 1 "A" "d" 2 3 "i").name ∧
      r2.description = (Product.mk 1 "A" "d" 2 3 "i").description ∧
      r2.price = (Product.mk 1 "A" "d" 2 3 "i").price ∧
      r2.stock = (Product.mk 1 "A" "d" 2 3 "i").stock :=
  c7_to_dict_roundtrip 1 "A" "d" 2 3 "i" (fun _ => false) "z"
    (Product.mk 1 "A" "d" 2 3 "i") (by decide)

/-- A query-result row with a valid integer id, text name and numeric
price/stock, used by the C2 theorems. -/
def c2rowA : DBRow :=
  ⟨.int 1, .text "Laptop", .text "d", .real 10, .int 5, .text "x.png"⟩

/-- A query-result row identical in shape to `c2rowA` but with a SQL NULL
name, used by the C2 theorems. -/
def c2rowB : DBRow :=
  ⟨.int 2, .null, .text "d", .real 20, .int 3, .text "y.png"⟩

/-- Counterexample to claim C2: the claim says that when exactly one row
has a null name, `list_all()` skips only that row and returns the rest.
On this two-row query result the code returns BOTH Records: Python's
`str(None)` turns the null name into the non-empty string `None`, which
passes validation, so the null-name row is not skipped. -/
theorem c2_null_name_counterexample :
    DatabaseSource.get_all_products [c2rowA, c2rowB] =
      .ok [⟨1, "Laptop", "d", 10, 5, "x.png"⟩, ⟨2, "None", "d", 20, 3, "y.png"⟩] ∧
    ¬ (∃ ps, DatabaseSource.get_all_products [c2rowA, c2rowB] = .ok ps ∧
        ps.length = 1) := by
  constructor
  · decide
  · rintro ⟨ps, hps, hlen⟩
    rw [show DatabaseSource.get_all_products [c2rowA, c2rowB] =
        .ok [⟨1, "Laptop", "d", 10, 5, "x.png"⟩, ⟨2, "None", "d", 20, 3, "y.png"⟩]
      from by decide] at hps
    injection hps with hps
    subst hps
    simp at hlen

/-- Claim C2 (amended): when the query returns rows of which one has a
null name and every row (that one included) otherwise constructs
successfully, `list_all()` skips nothing: it returns one Record per row,
and the null-name row's Record carries the name `None` produced by
Python's `str(None)`. -/
theorem c2_null_name_amended (pre post : List DBRow) (r : DBRow)
    (hall : ∀ x ∈ pre ++ r :: post,
      ∃ p, DatabaseSource.create_product_from_row x = Except.ok p)
    (hname : r.name = SqlValue.null) :
    ∃ ps, DatabaseSource.get_all_products (pre ++ r :: post) = .ok ps ∧
      ps.length = pre.length + 1 + post.length ∧
      ∃ p, DatabaseSource.create_product_from_row r = Except.ok p ∧
        p ∈ ps ∧ p.name = "None" := by
  have hr : r ∈ pre ++ r :: post := by simp
  obtain ⟨p, hp⟩ := hall r hr
  have hlen := dbRowsLoop_length_all_ok _ hall
  have hne : dbRowsLoop (pre ++ r :: post) ≠ [] := by
    intro h0
    rw [h0] at hlen
    simp at hlen
    omega
  refine ⟨dbRowsLoop (pre ++ r :: post), ?_, ?_,
    p, hp, mem_dbRowsLoop_of_ok _ _ _ hr hp, ?_⟩
  · simp [DatabaseSource.get_all_products, hne]
  · rw [hlen]
    simp [List.length_append]
    omega
  · obtain ⟨-, hnm⟩ := create_ok_fields _ _ hp
    rw [hnm, hname]
    decide

/-- Witness for C2 (amended) on the two concrete rows. -/
theorem c2_null_name_amended_witness :
    (∀ x ∈ [c2rowA] ++ c2rowB :: [],
      ∃ p, DatabaseSource.create_product_from_row x = Except.ok p) ∧
    c2rowB.name = SqlValue.null ∧
    (∃ ps, DatabaseSource.get_all_products ([c2rowA] ++ c2rowB :: []) = .ok ps ∧
      ps.length = [c2rowA].length + 1 + ([] : List DBRow).length ∧
      ∃ p, DatabaseSource.create_product_from_row c2rowB = Except.ok p ∧
        p ∈ ps ∧ p.name = "None") := by
  have hall : ∀ x ∈ [c2rowA] ++ c2rowB :: [],
      ∃ p, DatabaseSource.create_product_from_row x = Except.ok p := by
    intro x hx
    rcases List.mem_cons.mp hx with h | h
    · exact ⟨⟨1, "Laptop", "d", 10, 5, "x.png"⟩, by rw [h]; decide⟩
    · rcases List.mem_cons.mp h with h2 | h2
      · exact ⟨⟨2, "None", "d", 20, 3, "y.png"⟩, by rw [h2]; decide⟩
      · cases h2
  exact ⟨hall, rfl, c2_null_name_amended [c2rowA] [] c2rowB hall rfl⟩

/-- Counterexample to claim C3: the claim says every successful
`list_all()` on either source returns Records ascending by identifier.
The Tabular-File Source returns file order: on a file listing id 2 before
id 1 the call succeeds and the result is not ascending (the spec itself
concedes file order is "not enforced by this component"). -/
theorem c3_order_counterexample :
    ∃ ps, CSVSource.get_all_products ⟨"data/products.csv"⟩
        (some [["id", "name", "description", "price", "stock", "image_path"],
               ["2", "B", "d", "3", "5", "b.png"],
               ["1", "A", "d", "1", "5", "a.png"]]) = .ok ps ∧
      ¬ ps.Pairwise (fun p q => p.id ≤ q.id) :=
  ⟨[⟨2, "B", "d", 3, 5, "b.png"⟩, ⟨1, "A", "d", 1, 5, "a.png"⟩],
    by decide, by decide⟩

/-- Claim C3 (amended): the ordering guarantee holds for the Relational
Source: its query ends in `ORDER BY id`, and `id` is the SQLite integer
primary key, so the returned rows carry integer ids in ascending order —
under those two facts about the query result, every successful
`list_all()` result is ascending by identifier.  (The Tabular-File Source
merely preserves file order, as the counterexample shows.) -/
theorem c3_db_sorted (rows : List DBRow) (ps : List Product)
    (hint : ∀ r ∈ rows, ∃ i : Int, r.id = SqlValue.int i)
    (hsorted : rows.Pairwise (fun a b => ∀ i j : Int,
      a.id = SqlValue.int i → b.id = SqlValue.int j → i ≤ j))
    (h : DatabaseSource.get_all_products rows = .ok ps) :
    ps.Pairwise (fun p q => p.id ≤ q.id) := by
  have hps : ps = dbRowsLoop rows := by
    unfold DatabaseSource.get_all_products at h
    by_cases h0 : dbRowsLoop rows = []
    · simp [h0] at h
    · simp [h0] at h
      exact h.symm
  subst hps
  exact dbRowsLoop_sorted rows hint hsorted

/-- Witness for C3 (amended) on two concrete ordered rows. -/
theorem c3_db_sorted_witness :
    ([⟨1, "Laptop", "d", 10, 5, "x.png"⟩, ⟨3, "Muis", "d", 20, 7, "y.png"⟩] :
      List Product).Pairwise (fun p q => p.id ≤ q.id) := by
  refine c3_db_sorted
    [⟨.int 1, .text "Laptop", .text "d", .real 10, .int 5, .text "x.png"⟩,
     ⟨.int 3, .text "Muis", .text "d", .real 20, .int 7, .text "y.png"⟩]
    [⟨1, "Laptop", "d", 10, 5, "x.png"⟩, ⟨3, "Muis", "d", 20, 7, "y.png"⟩]
    ?_ ?_ (by decide)
  · intro r hr
    rcases List.mem_cons.mp hr with h | h
    · exact ⟨1, by rw [h]⟩
    · rcases List.mem_cons.mp h with h2 | h2
      · exact ⟨3, by rw [h2]⟩
      · cases h2
  · refine List.pairwise_cons.mpr ⟨?_, List.pairwise_singleton _ _⟩
    intro b hb i j hi hj
    rcases List.mem_cons.mp hb with h | h
    · subst h
      injection hi with hi
      injection hj with hj
      omega
    · cases h


end CatalogSpec
